import Mathlib

/-!
Verification of the OpenQASM3 exporter (`qiskit/qasm3/exporter.py`,
`qiskit/qasm3/grammar.py`, `qiskit/qasm3/__init__.py`) against its
natural-language specification.

The Python code is shallowly embedded: every class attribute and method that
the properties depend on is translated into an executable Lean definition.
Python object identity (`id(x)`) is modelled by a `Nat` field fixed at object
creation; Python exceptions become `Except PyErr`; Python dicts become
association lists with insert-or-replace update (preserving first-insertion
position, as CPython dicts do).
-/

set_option autoImplicit false

namespace Qasm3

/-- Python exception classes that the exporter code can raise. -/
inductive PyErr where
  | typeError
  | attributeError
  | indexError
  deriving DecidableEq, Repr

/-- The dynamic class of an instruction object, as used by the exporter's
`isinstance` / `type(...) in [...]` dispatch (`exporter.py`):
`ugate` is class `UGate`; `std cls` is an instance of the named
standard-library gate class (all subclasses of `Gate`); `gate` is the exact
class `Gate` (result of `QuantumCircuit.to_gate`); `instrType` is the exact
class `Instruction` (result of `to_instruction`); `otherGate`/`otherInstr`
are other subclasses of `Gate` resp. `Instruction`; `barrier`/`measureOp`
are the classes `Barrier` and `Measure`. -/
inductive Kind where
  | ugate
  | std (cls : String)
  | gate
  | instrType
  | otherGate (cls : String)
  | otherInstr (cls : String)
  | barrier
  | measureOp
  deriving DecidableEq, Repr

/-- The Python class name of an instruction's exact class. -/
def clsNameOf : Kind → String
  | .ugate => "UGate"
  | .std c => c
  | .gate => "Gate"
  | .instrType => "Instruction"
  | .otherGate c => c
  | .otherInstr c => c
  | .barrier => "Barrier"
  | .measureOp => "Measure"

/-- `isinstance(x, Gate)`: every gate class, `Gate` itself included. -/
def isGateKind : Kind → Bool
  | .ugate => true
  | .std _ => true
  | .gate => true
  | .otherGate _ => true
  | _ => false

/-- `isinstance(x, self.builtins)` with `builtins = (Barrier, Measure)`
(`Qasm3Builder.builtins`, exporter.py line 218). -/
def isBuiltinKind : Kind → Bool
  | .barrier => true
  | .measureOp => true
  | _ => false

/-- A gate parameter.  `sym s` is an unbound symbolic `Parameter` whose
`str()` is `s`.  `num repr piForm` is a float whose Python decimal
representation is `repr`; when the float is an exact rational multiple
`n/d * pi` the decomposition is carried in `piForm = some (n, d)`. -/
inductive PParam where
  | sym (s : String)
  | num (dec : String) (piForm : Option (Int × Nat))
  deriving DecidableEq, Repr

/-- Python `str(param)`: the symbol's name, or the float's decimal text. -/
def pyStr : PParam → String
  | .sym s => s
  | .num d _ => d

/-- Modelled from the spec: `pi_check(param, output="qasm")`
(`qiskit.circuit.tools.pi_check`) is not under `src/`; the spec says a gate
parameter that is an exact rational multiple of pi renders symbolically
(`2*pi`, `pi/2`, `-5*pi`), otherwise as a decimal literal, and an unbound
symbolic parameter renders as its own name. -/
def pi_check : PParam → String
  | .sym s => s
  | .num dec none => dec
  | .num dec (some (n, d)) =>
      if n == 0 then "0"
      else if d == 1 then
        if n == 1 then "pi"
        else if n == -1 then "-pi"
        else toString n ++ "*pi"
      else if d == 0 then dec
      else
        if n == 1 then "pi/" ++ toString d
        else if n == -1 then "-pi/" ++ toString d
        else toString n ++ "*pi/" ++ toString d

/-- A classical or quantum bit: `bit.register.name` and `bit.index`
(`exporter.py` lines 458, 461). -/
structure Bit where
  regName : String
  idx : Nat
  deriving DecidableEq, Repr

/-- A register: `reg.name` and `reg.size`; iterating yields its bits in
index order. -/
structure Reg where
  name : String
  size : Nat
  deriving DecidableEq, Repr

mutual
/-- An instruction object: `iid` models Python `id(instruction)`;
`name`, `kind` (its class), `params`, `num_qubits`, the optional nested
`definition` (a `QuantumCircuit`), the optional `condition`
`(register, value)` where the register is identified by name, and a
`fresh` marker set only on objects created by `.copy()` during lowering,
recording that their `id` is distinct from every id occurring in the
input circuit (hence from every id the namespace can contain). -/
inductive Instr : Type where
  | mk : (iid : Nat) → (name : String) → (kind : Kind) →
         (params : List PParam) → (numQubits : Nat) →
         (defn : Option SubC) → (condition : Option (String × Int)) →
         (fresh : Bool) → Instr

/-- A nested definition circuit: `definition.qregs`,
`definition.parameters` (unbound parameter names) and `definition.data`. -/
inductive SubC : Type where
  | mk : (qregs : List Reg) → (parameters : List String) →
         (data : List Tup) → SubC

/-- One element of `circuit.data`: the tuple
`(instruction, qargs, cargs)`. -/
inductive Tup : Type where
  | mk : (op : Instr) → (qargs : List Bit) → (cargs : List Bit) → Tup
end

def Instr.iid : Instr → Nat
  | .mk i _ _ _ _ _ _ _ => i

def Instr.name : Instr → String
  | .mk _ n _ _ _ _ _ _ => n

def Instr.kind : Instr → Kind
  | .mk _ _ k _ _ _ _ _ => k

def Instr.params : Instr → List PParam
  | .mk _ _ _ p _ _ _ _ => p

def Instr.numQubits : Instr → Nat
  | .mk _ _ _ _ q _ _ _ => q

def Instr.defn : Instr → Option SubC
  | .mk _ _ _ _ _ d _ _ => d

def Instr.condition : Instr → Option (String × Int)
  | .mk _ _ _ _ _ _ c _ => c

def Instr.fresh : Instr → Bool
  | .mk _ _ _ _ _ _ _ f => f

def SubC.qregs : SubC → List Reg
  | .mk r _ _ => r

def SubC.parameters : SubC → List String
  | .mk _ p _ => p

def SubC.data : SubC → List Tup
  | .mk _ _ d => d

mutual
/-- Python `==` on instructions (`Instruction.__eq__`): structural
comparison of name, class, params, qubit count, condition and nested
definition; object identity (`iid`) and the `fresh` marker do not
participate. -/
def pyEqI : Instr → Instr → Bool
  | .mk _ n1 k1 p1 q1 d1 c1 _, .mk _ n2 k2 p2 q2 d2 c2 _ =>
    n1 == n2 && k1 == k2 && p1 == p2 && q1 == q2 && c1 == c2 &&
    (match d1, d2 with
     | none, none => true
     | some a, some b => pyEqS a b
     | _, _ => false)
termination_by structural x _ => x

/-- Python `==` on definition circuits. -/
def pyEqS : SubC → SubC → Bool
  | .mk r1 p1 d1, .mk r2 p2 d2 => r1 == r2 && p1 == p2 && pyEqTL d1 d2
termination_by structural x _ => x

/-- Python `==` on `circuit.data` lists. -/
def pyEqTL : List Tup → List Tup → Bool
  | [], [] => true
  | t :: ts, u :: us => pyEqT t u && pyEqTL ts us
  | _, _ => false
termination_by structural x _ => x

/-- Python `==` on `(instruction, qargs, cargs)` tuples. -/
def pyEqT : Tup → Tup → Bool
  | .mk o1 q1 c1, .mk o2 q2 c2 => pyEqI o1 o2 && q1 == q2 && c1 == c2
termination_by structural x _ => x
end

/-- A value stored under a string key of `GlobalNamespace.__dict__`:
either a pre-seeded standard-library gate class (`qiskit_gates` maps names
to classes) or a registered instruction object. -/
inductive NsEntry where
  | cls (c : String)
  | obj (i : Instr)

/-- Python `==` between a namespace entry and an instruction: a class never
equals an instance; an instruction compares structurally. -/
def nsEq (e : NsEntry) (x : Instr) : Bool :=
  match e with
  | .cls _ => false
  | .obj i => pyEqI i x

/-- `isinstance(x, entry)`: legal when the entry is a class; a `TypeError`
when the entry is a registered instance (as `isinstance` requires a type
as its second argument). -/
def isinstanceEntry (x : Instr) : NsEntry → Except PyErr Bool
  | .cls c => .ok (clsNameOf x.kind == c)
  | .obj _ => .error .typeError

/-- Association-list lookup (string keys of the namespace dict). -/
def alookup : List (String × NsEntry) → String → Option NsEntry
  | [], _ => none
  | (k, v) :: rest, key => if k == key then some v else alookup rest key

/-- Association-list insert-or-replace with CPython dict semantics: an
existing key keeps its position, a new key is appended. -/
def aset : List (String × NsEntry) → String → NsEntry → List (String × NsEntry)
  | [], k, v => [(k, v)]
  | (k1, v1) :: rest, k, v =>
      if k1 == k then (k, v) :: rest else (k1, v1) :: aset rest k v

/-- Lookup in the id-keyed backward map (`self.__dict__[id(instruction)]`). -/
def blookup : List (Nat × String) → Nat → Option String
  | [], _ => none
  | (k, v) :: rest, key => if k == key then some v else blookup rest key

/-- Insert-or-replace in the id-keyed backward map. -/
def bset : List (Nat × String) → Nat → String → List (Nat × String)
  | [], k, v => [(k, v)]
  | (k1, v1) :: rest, k, v =>
      if k1 == k then (k, v) :: rest else (k1, v1) :: bset rest k v

/-- `GlobalNamespace` (exporter.py lines 122-214): `fwd` holds the string
keys of `self.__dict__` (name to class-or-instruction), `bwd` the integer
keys (instruction id to chosen name). -/
structure GlobalNamespace where
  fwd : List (String × NsEntry)
  bwd : List (Nat × String)

/-- `name in self.__dict__` / `item in self` for a string key (integer keys
of the dict never equal a string). -/
def nsContains (ns : GlobalNamespace) (name : String) : Bool :=
  (alookup ns.fwd name).isSome

/-- `GlobalNamespace.__setitem__`: binds `name_str` to the instruction and
records the backward entry `id(instruction) -> name_str`. -/
def nsSet (ns : GlobalNamespace) (name : String) (x : Instr) : GlobalNamespace :=
  { fwd := aset ns.fwd name (.obj x), bwd := bset ns.bwd x.iid name }

/-- `GlobalNamespace.__getitem__` on an `Instruction` key:
`self.__dict__.get(id(key), key.name)`.  An object created by `.copy()`
(`fresh = true`) has an id absent from the map, so it falls back to its
own name. -/
def nsGetName (ns : GlobalNamespace) (x : Instr) : String :=
  if x.fresh then x.name
  else match blookup ns.bwd x.iid with
    | some n => n
    | none => x.name

/-- `GlobalNamespace.register` (exporter.py lines 210-214): when the
instruction's name is already a key of the dict, bind under
`name + "_" + id(instruction)`; otherwise bind under the bare name. -/
def nsRegister (ns : GlobalNamespace) (x : Instr) : GlobalNamespace :=
  if nsContains ns x.name then
    nsSet ns (x.name ++ "_" ++ toString x.iid) x
  else
    nsSet ns x.name x

/-- `GlobalNamespace.exists` (exporter.py lines 203-208). -/
def nsExists (ns : GlobalNamespace) (x : Instr) : Except PyErr Bool :=
  if x.kind == .ugate then .ok true
  else if x.kind == .gate || x.kind == .instrType then
    -- `self.get(instruction.name, None) == instruction`; `None == instr` is False
    .ok (match alookup ns.fwd x.name with
      | none => false
      | some e => nsEq e x)
  else
    -- `instruction.name in self and isinstance(instruction, self[instruction.name])`
    match alookup ns.fwd x.name with
    | none => .ok false
    | some e => isinstanceEntry x e

/-- `GlobalNamespace.qiskit_gates` (exporter.py lines 123-155), in source
order: the standard-library vocabulary pre-seeded for `stdgates.inc`. -/
def qiskit_gates : List (String × NsEntry) :=
  [("p", .cls "PhaseGate"), ("x", .cls "XGate"), ("y", .cls "YGate"),
   ("z", .cls "ZGate"), ("h", .cls "HGate"), ("s", .cls "SGate"),
   ("sdg", .cls "SdgGate"), ("t", .cls "TGate"), ("tdg", .cls "TdgGate"),
   ("sx", .cls "SXGate"), ("rx", .cls "RXGate"), ("ry", .cls "RYGate"),
   ("rz", .cls "RZGate"), ("cx", .cls "CXGate"), ("cy", .cls "CYGate"),
   ("cz", .cls "CZGate"), ("cp", .cls "CPhaseGate"), ("crx", .cls "CRXGate"),
   ("cry", .cls "CRYGate"), ("crz", .cls "CRZGate"), ("ch", .cls "CHGate"),
   ("swap", .cls "SwapGate"), ("ccx", .cls "CCXGate"),
   ("cswap", .cls "CSwapGate"), ("cu", .cls "CUGate"), ("CX", .cls "CXGate"),
   ("phase", .cls "PhaseGate"), ("cphase", .cls "CPhaseGate"),
   ("id", .cls "IGate"), ("u1", .cls "U1Gate"), ("u2", .cls "U2Gate"),
   ("u3", .cls "U3Gate")]

/-- `GlobalNamespace.__init__` (exporter.py lines 158-165): per include
file, `"stdgates.inc"` seeds the standard vocabulary, anything else is
ignored (the `else` branch is a `pass`).  `update` calls `__setitem__`
per pair; the backward entries it would create are keyed by the ids of the
class objects, which never coincide with an instruction id occurring in a
circuit, so they are not represented. -/
def initNamespace (includes : List String) : GlobalNamespace :=
  includes.foldl
    (fun ns f =>
      if f == "stdgates.inc" then
        { ns with fwd := qiskit_gates.foldl (fun l p => aset l p.1 p.2) ns.fwd }
      else ns)
    { fwd := [], bwd := [] }

/-- An index identifier (`IndexIdentifier2`, grammar.py lines 201-217):
`plain s` has no expression list and renders as the bare identifier;
`indexed s i` carries the one-element expression list `[Integer(i)]` the
builder constructs and renders as `s[i]`. -/
inductive IdxId where
  | plain (s : String)
  | indexed (s : String) (i : Nat)
  deriving DecidableEq, Repr

/-- A formal quantum argument (`QuantumArgument`, grammar.py lines 440-450):
an identifier with an optional size designator. -/
structure QArg where
  name : String
  designator : Option Nat
  deriving DecidableEq, Repr

/-- The AST statements the builder constructs, specialised to the shapes
`Qasm3Builder` actually produces (each constructor names the grammar.py
class it denotes):
`calDef` is `CalibrationDefinition`, `subDef` is `SubroutineDefinition`
(whose `SubroutineBlock` appends a `ReturnStatement` to the body),
`gateDef` is `QuantumGateDefinition` with its `QuantumGateSignature`,
`inputDecl` is `Input`, `bitDecl`/`qubitDecl` are
`BitDeclaration`/`QuantumDeclaration` with an integer `Designator`,
`gateCall` is `QuantumGateCall`, `subCall` is `SubroutineCall`,
`barrierStmt` is `QuantumBarrier`, `measureAssign` is
`QuantumMeasurementAssignment` of a `QuantumMeasurement`, and `branch` is
`BranchingStatement` of a `ComparisonExpression` with `EqualsOperator`
and a `ProgramBlock` (the builder never supplies an else block). -/
inductive GStmt where
  | calDef (name : String) (qargs : List String)
  | subDef (name : String) (qargs : List QArg) (body : List GStmt)
  | gateDef (name : String) (params : List String) (qargs : List String)
            (body : List GStmt)
  | inputDecl (ty : String) (var : String)
  | bitDecl (name : String) (size : Nat)
  | qubitDecl (name : String) (size : Nat)
  | gateCall (name : String) (params : List String) (qargs : List IdxId)
  | subCall (name : String) (params : List String) (qargs : List IdxId)
  | barrierStmt (qargs : List IdxId)
  | measureAssign (tgt : IdxId) (srcs : List IdxId)
  | branch (lhs : String) (rhs : Int) (body : List GStmt)

/-- The constructor tag of a statement, for stating order properties. -/
inductive STag where
  | calDef | subDef | gateDef | inputDecl | bitDecl | qubitDecl
  | gateCall | subCall | barrierStmt | measureAssign | branch
  deriving DecidableEq, Repr

def GStmt.tag : GStmt → STag
  | .calDef _ _ => .calDef
  | .subDef _ _ _ => .subDef
  | .gateDef _ _ _ _ => .gateDef
  | .inputDecl _ _ => .inputDecl
  | .bitDecl _ _ => .bitDecl
  | .qubitDecl _ _ => .qubitDecl
  | .gateCall _ _ _ => .gateCall
  | .subCall _ _ _ => .subCall
  | .barrierStmt _ => .barrierStmt
  | .measureAssign _ _ => .measureAssign
  | .branch _ _ _ => .branch

/-- The emitted name of a definition block (`None` for non-definition
statements): the name in a `defcal`, `def` or `gate` declaration. -/
def GStmt.defName : GStmt → Option String
  | .calDef n _ => some n
  | .subDef n _ _ => some n
  | .gateDef n _ _ _ => some n
  | _ => none

def joinComma (l : List String) : String :=
  String.intercalate ", " l

/-- `IndexIdentifier2.qasm` (grammar.py lines 213-217). -/
def renderIdx : IdxId → String
  | .plain s => s
  | .indexed s i => s ++ "[" ++ toString i ++ "]"

/-- `QuantumArgument.qasm` (grammar.py lines 446-450). -/
def renderQArg : QArg → String
  | ⟨n, some d⟩ => "qubit[" ++ toString d ++ "] " ++ n
  | ⟨n, none⟩ => "qubit " ++ n

/-- `QuantumGateSignature.qasm` (grammar.py lines 464-470); the builder
passes `params or None`, so an empty parameter list renders without
parentheses. -/
def renderSignature (name : String) (params : List String)
    (qargs : List String) : String :=
  if params.isEmpty then name ++ " " ++ joinComma qargs
  else name ++ "(" ++ joinComma params ++ ") " ++ joinComma qargs

mutual
/-- The flattened leaf strings of one statement's `qasm()` rendering, in
emission order.  `flatten_tree` (exporter.py lines 110-116) concatenates
the leaves of the nested lists `qasm()` returns; rendering directly to the
leaf sequence is equivalent.  Literal braces appear here escaped
(`\x7b` is `{`, `\x7d` is `}`). -/
def renderStmt : GStmt → List String
  | .calDef n qs =>
      -- CalibrationDefinition.qasm (grammar.py 545-555): empty block
      ["defcal " ++ n ++ " " ++ joinComma qs ++ " ", "\x7b\x7d", "\n"]
  | .subDef n qs body =>
      -- SubroutineDefinition.qasm (506-512) + SubroutineBlock (430-437)
      (if qs.isEmpty then ["def " ++ n ++ " "]
       else ["def " ++ n ++ " " ++ joinComma (qs.map renderQArg) ++ " "])
      ++ ["\x7b\n"] ++ renderStmts body ++ ["return;\n"] ++ ["\x7d\n"]
  | .gateDef n ps qs body =>
      -- QuantumGateDefinition.qasm (483-484) + QuantumBlock/ProgramBlock
      ["gate " ++ renderSignature n ps qs ++ " "]
      ++ ["\x7b\n"] ++ renderStmts body ++ ["\x7d\n"]
  | .inputDecl ty v => ["input " ++ ty ++ " " ++ v ++ ";\n"]
  | .bitDecl n sz => ["bit[" ++ toString sz ++ "] " ++ n ++ ";\n"]
  | .qubitDecl n sz => ["qubit[" ++ toString sz ++ "] " ++ n ++ ";\n"]
  | .gateCall n ps qs =>
      -- QuantumGateCall.qasm (337-346)
      if ps.isEmpty then
        [n ++ " " ++ joinComma (qs.map renderIdx) ++ ";\n"]
      else
        [n ++ "(" ++ joinComma ps ++ ") "
           ++ joinComma (qs.map renderIdx) ++ ";\n"]
  | .subCall n ps qs =>
      -- SubroutineCall.qasm (365-376): note the space before the parens
      if ps.isEmpty then
        [n ++ " " ++ joinComma (qs.map renderIdx) ++ ";\n"]
      else
        [n ++ " (" ++ joinComma ps ++ ") "
           ++ joinComma (qs.map renderIdx) ++ ";\n"]
  | .barrierStmt qs =>
      ["barrier " ++ joinComma (qs.map renderIdx) ++ ";\n"]
  | .measureAssign tgt srcs =>
      -- QuantumMeasurementAssignment.qasm (244-245) + QuantumMeasurement
      [renderIdx tgt ++ " = " ++ "measure "
         ++ joinComma (srcs.map renderIdx) ++ ";\n"]
  | .branch lhs rhs body =>
      -- BranchingStatement.qasm (628-633), ComparisonExpression (611-612)
      ["if (" ++ lhs ++ " == " ++ toString rhs ++ ")"]
      ++ ["\x7b\n"] ++ renderStmts body ++ ["\x7d\n"]

/-- Renders a statement list by concatenating each statement's leaves. -/
def renderStmts : List GStmt → List String
  | [] => []
  | s :: rest => renderStmt s ++ renderStmts rest
end

/-- `Header.qasm` with `Version("3")` and one `Include` per file
(grammar.py lines 98-128; builder lines 242-245, 266-267). -/
def renderHeader (includes : List String) : List String :=
  ["OPENQASM 3;\n"] ++ includes.map (fun f => "include " ++ f ++ ";\n")

/-- `Program.qasm` (grammar.py lines 78-85): header lines then statements. -/
def renderProgram (includes : List String) (stmts : List GStmt) : List String :=
  renderHeader includes ++ renderStmts stmts

/-- `Exporter.flatten_tree` (exporter.py lines 110-116): depth-first
concatenation of the leaf strings. -/
def flatten_tree (leaves : List String) : String :=
  String.join leaves

/-- The circuit read contract (`Qasm3Builder` accesses `circuit.data`,
`circuit.qregs`, `circuit.cregs`, `circuit.parameters`; the parameters
property yields each unbound symbolic parameter once). -/
structure Circuit where
  qregs : List Reg
  cregs : List Reg
  data : List Tup
  parameters : List String

/-- Dict insert-or-replace for the id-keyed `_*_to_declare` dicts
(exporter.py lines 223-225, 229-240): an existing id keeps its position. -/
def dinsert : List (Nat × Instr) → Nat → Instr → List (Nat × Instr)
  | [], k, v => [(k, v)]
  | (k1, v1) :: rest, k, v =>
      if k1 == k then (k, v) :: rest else (k1, v1) :: dinsert rest k v

/-- The mutable state of one `Qasm3Builder` (exporter.py lines 220-227). -/
structure BState where
  ns : GlobalNamespace
  gate_to_declare : List (Nat × Instr)
  subroutine_to_declare : List (Nat × Instr)
  opaq_to_declare : List (Nat × Instr)  -- source name: _opaque_to_declare
  flat_reg : Bool

/-- `Qasm3Builder.__init__`: empty declare dicts, flat naming off, the
namespace seeded from the include list. -/
def initBState (includes : List String) : BState :=
  { ns := initNamespace includes
    gate_to_declare := []
    subroutine_to_declare := []
    opaq_to_declare := []
    flat_reg := false }

/-- `Qasm3Builder._register_gate` (lines 229-231). -/
def register_gate (s : BState) (g : Instr) : BState :=
  { s with ns := nsRegister s.ns g
           gate_to_declare := dinsert s.gate_to_declare g.iid g }

/-- `Qasm3Builder._register_subroutine` (lines 233-235). -/
def register_subroutine (s : BState) (x : Instr) : BState :=
  { s with ns := nsRegister s.ns x
           subroutine_to_declare := dinsert s.subroutine_to_declare x.iid x }

/-- `Qasm3Builder._register_opaque` (lines 237-240): registers only when
the namespace does not already recognise the instruction. -/
def register_opaq (s : BState) (x : Instr) : Except PyErr BState := do
  let e ← nsExists s.ns x
  if e then pure s
  else pure { s with ns := nsRegister s.ns x
                     opaq_to_declare := dinsert s.opaq_to_declare x.iid x }

mutual
/-- `Qasm3Builder.hoist_declarations` (lines 251-264): the loop over the
data list, threading the builder state and propagating the first
exception; the loop body is `hoist_tup`. -/
def hoist_declarations : BState → List Tup → Except PyErr BState
  | s, [] => .ok s
  | s, t :: rest =>
    match hoist_tup s t with
    | .error e => .error e
    | .ok s1 => hoist_declarations s1 rest

/-- One iteration of the `hoist_declarations` loop on the tuple
`(instruction, qargs, cargs)`: only `instruction[0]` is consulted. -/
def hoist_tup : BState → Tup → Except PyErr BState
  | s, .mk op _qa _ca => hoist_instr s op

/-- The body of one `hoist_declarations` iteration: skip when the
namespace recognises the instruction or it is a builtin directive;
register an instruction without a body as opaque; otherwise hoist the
body first (post-order), then register as a gate when
`isinstance(instruction, Gate)` and as a subroutine otherwise. -/
def hoist_instr : BState → Instr → Except PyErr BState
  | s, .mk i n k p q dft c fr =>
    let op := Instr.mk i n k p q dft c fr
    match nsExists s.ns op with
    | .error e => .error e
    | .ok b =>
      if b || isBuiltinKind k then .ok s
      else
        match dft with
        | none => register_opaq s op
        | some sub =>
          match hoist_sub s sub with
          | .error e => .error e
          | .ok s1 =>
            if isGateKind k then .ok (register_gate s1 op)
            else .ok (register_subroutine s1 op)

/-- The recursive call `self.hoist_declarations(instruction[0].definition.data)`. -/
def hoist_sub : BState → SubC → Except PyErr BState
  | s, .mk _rs _ps dat => hoist_declarations s dat
end

/-- `Qasm3Builder.build_indexidentifier` (lines 456-461). -/
def build_indexidentifier (s : BState) (b : Bit) : IdxId :=
  if s.flat_reg then .plain (b.regName ++ "_" ++ toString b.idx)
  else .indexed b.regName b.idx

/-- `Qasm3Builder.build_indexIdentifierlist` (lines 432-436). -/
def build_indexIdentifierlist (s : BState) (bits : List Bit) : List IdxId :=
  bits.map (build_indexidentifier s)

/-- `Qasm3Builder.build_quantumgatecall` (lines 438-447): literal `U` for
the universal gate, the namespace-resolved name otherwise; parameters are
rendered through `pi_check(param, output="qasm")`. -/
def build_quantumgatecall (s : BState) (t : Tup) : GStmt :=
  match t with
  | .mk op qa _ca =>
    let name := if op.kind == .ugate then "U" else nsGetName s.ns op
    .gateCall name (op.params.map pi_check) (build_indexIdentifierlist s qa)

/-- `Qasm3Builder.build_subroutinecall` (lines 449-454): parameters are
rendered with plain `str`, not `pi_check`. -/
def build_subroutinecall (s : BState) (t : Tup) : GStmt :=
  match t with
  | .mk op qa _ca =>
    .subCall (nsGetName s.ns op) (op.params.map pyStr)
      (build_indexIdentifierlist s qa)

/-- `Qasm3Builder.build_quantuminstructions` (lines 383-408).  A gate
with a condition is cloned with the condition cleared (`.copy()` yields a
new object, hence `fresh := true`) and lowered inside a
`BranchingStatement` whose block is
`build_programblock([(clone, qargs, cargs)])`; since the clone is a
conditionless gate, that inner call lowers to exactly the one gate call
written here (machine-checked below as `build_programblock_clone`).  A
plain gate becomes a gate call; a barrier and a measurement have dedicated
forms (`instruction[2][0]` raises `IndexError` on an empty
classical-target list); every other kind falls through to a subroutine
call. -/
def build_quantuminstructions : BState → List Tup → Except PyErr (List GStmt)
  | _, [] => .ok []
  | s, (Tup.mk (Instr.mk i n k p q d cond fr) qa ca) :: rest =>
    let op := Instr.mk i n k p q d cond fr
    if isGateKind k then
      match cond with
      | some (cn, cv) =>
        let copy := Instr.mk i n k p q d none true
        let blk := [build_quantumgatecall s (Tup.mk copy qa ca)]
        match build_quantuminstructions s rest with
        | .error e => .error e
        | .ok tail => .ok (GStmt.branch cn cv blk :: tail)
      | none =>
        match build_quantuminstructions s rest with
        | .error e => .error e
        | .ok tail => .ok (build_quantumgatecall s (Tup.mk op qa ca) :: tail)
    else if k == .barrier then
      match build_quantuminstructions s rest with
      | .error e => .error e
      | .ok tail =>
        .ok (GStmt.barrierStmt (build_indexIdentifierlist s qa) :: tail)
    else if k == .measureOp then
      match ca with
      | [] => .error .indexError
      | c0 :: _ =>
        match build_quantuminstructions s rest with
        | .error e => .error e
        | .ok tail =>
          .ok (GStmt.measureAssign (build_indexidentifier s c0)
                 (build_indexIdentifierlist s qa) :: tail)
    else
      match build_quantuminstructions s rest with
      | .error e => .error e
      | .ok tail => .ok (build_subroutinecall s (Tup.mk op qa ca) :: tail)

/-- `Qasm3Builder.build_programblock` (lines 410-411). -/
def build_programblock (s : BState) (l : List Tup) :
    Except PyErr (List GStmt) :=
  build_quantuminstructions s l


/-- `Qasm3Builder.build_quantumArgumentList` (lines 419-430): with flat
naming one plain argument per qubit named `regname_index`, otherwise one
sized argument per register. -/
def build_quantumArgumentList (s : BState) (qregs : List Reg) : List QArg :=
  if s.flat_reg then
    qregs.flatMap (fun r =>
      (List.range r.size).map (fun n =>
        { name := r.name ++ "_" ++ toString n, designator := none }))
  else
    qregs.map (fun r => { name := r.name, designator := some r.size })

/-- `Qasm3Builder.build_opaquedefinition` (lines 326-329; `opaq` renames a
Lean reserved word): formal qubits `q_0 .. q_{n-1}`, an empty body. -/
def build_opaqdefinition (s : BState) (i : Instr) : Except PyErr GStmt :=
  .ok (.calDef (nsGetName s.ns i)
        ((List.range i.numQubits).map (fun n => "q_" ++ toString n)))

/-- `Qasm3Builder.build_subroutinedefinition` (lines 331-337): accessing
`instruction.definition.qregs` on a body-less instruction raises
`AttributeError` (`None` has no `qregs`). -/
def build_subroutinedefinition (s : BState) (i : Instr) :
    Except PyErr GStmt :=
  match i.defn with
  | none => .error .attributeError
  | some sub =>
    match build_quantuminstructions s sub.data with
    | .error e => .error e
    | .ok body =>
      .ok (.subDef (nsGetName s.ns i) (build_quantumArgumentList s sub.qregs)
            body)

/-- `Qasm3Builder.build_quantumGateSignature` (lines 348-363): dummy
parameter names `param_0 ..` for bound parameters
(`len(gate.params) - len(gate.definition.parameters)` of them; Python's
empty range on a negative count matches truncated subtraction), then the
unbound parameter names; the qubit arguments always flatten the
definition's registers. -/
def build_quantumGateSignature (s : BState) (g : Instr) (sub : SubC) :
    (String × List String × List String) :=
  let dummies := (List.range (g.params.length - sub.parameters.length)).map
    (fun n => "param_" ++ toString n)
  let qargs := sub.qregs.flatMap (fun r =>
    (List.range r.size).map (fun n => r.name ++ "_" ++ toString n))
  (nsGetName s.ns g, dummies ++ sub.parameters, qargs)

/-- `Qasm3Builder.build_quantumgatedefinition` (lines 339-346). -/
def build_quantumgatedefinition (s : BState) (g : Instr) :
    Except PyErr GStmt :=
  match g.defn with
  | none => .error .attributeError
  | some sub =>
    let sig := build_quantumGateSignature s g sub
    match build_quantuminstructions s sub.data with
    | .error e => .error e
    | .ok body => .ok (.gateDef sig.1 sig.2.1 sig.2.2 body)

/-- `Qasm3Builder.build_definition` (lines 320-324): sets `_flat_reg`,
runs the body builder, and clears the flag only on the normal return path
(there is no `try`/`finally`, so a raising builder leaves the flag set);
the returned state is the builder object's state after the call or after
the escaped exception. -/
def build_definition (s : BState) (i : Instr)
    (builder : BState → Instr → Except PyErr GStmt) :
    BState × Except PyErr GStmt :=
  let s1 := { s with flat_reg := true }
  match builder s1 i with
  | .error e => (s1, .error e)
  | .ok d => ({ s1 with flat_reg := false }, .ok d)

/-- One loop of `build_definitions` over the values of a declare dict,
threading the builder state and propagating the first exception. -/
def buildDefLoop (s : BState) (instrs : List Instr)
    (builder : BState → Instr → Except PyErr GStmt) :
    BState × Except PyErr (List GStmt) :=
  match instrs with
  | [] => (s, .ok [])
  | i :: rest =>
    match build_definition s i builder with
    | (s1, .error e) => (s1, .error e)
    | (s1, .ok d) =>
      match buildDefLoop s1 rest builder with
      | (s2, .error e) => (s2, .error e)
      | (s2, .ok ds) => (s2, .ok (d :: ds))

/-- The values of a declare dict in insertion order. -/
def dvalues (d : List (Nat × Instr)) : List Instr :=
  d.map (fun p => p.2)

/-- `Qasm3Builder.build_definitions` (lines 310-318): opaque declarations
first, then subroutine definitions, then gate definitions, each group in
its dict's insertion order. -/
def build_definitions (s : BState) : BState × Except PyErr (List GStmt) :=
  match buildDefLoop s (dvalues s.opaq_to_declare) build_opaqdefinition with
  | (s1, .error e) => (s1, .error e)
  | (s1, .ok ds1) =>
    match buildDefLoop s1 (dvalues s.subroutine_to_declare)
        build_subroutinedefinition with
    | (s2, .error e) => (s2, .error e)
    | (s2, .ok ds2) =>
      match buildDefLoop s2 (dvalues s.gate_to_declare)
          build_quantumgatedefinition with
      | (s3, .error e) => (s3, .error e)
      | (s3, .ok ds3) => (s3, .ok (ds1 ++ ds2 ++ ds3))

/-- `Qasm3Builder.build_inputs` (lines 365-369): one
`input float[32] name;` per element of `circuit.parameters`. -/
def build_inputs (qc : Circuit) : List GStmt :=
  qc.parameters.map (fun p => .inputDecl "float[32]" p)

/-- `Qasm3Builder.build_bitdeclarations` (lines 371-375). -/
def build_bitdeclarations (qc : Circuit) : List GStmt :=
  qc.cregs.map (fun r => .bitDecl r.name r.size)

/-- `Qasm3Builder.build_quantumdeclarations` (lines 377-381). -/
def build_quantumdeclarations (qc : Circuit) : List GStmt :=
  qc.qregs.map (fun r => .qubitDecl r.name r.size)

/-- `Qasm3Builder.build_globalstatements` (lines 269-308): definitions,
then inputs, then bit declarations, then qubit declarations, then the
lowered instructions (the `if x: ret += x` guards only skip empty lists,
which concatenation already ignores). -/
def build_globalstatements (s : BState) (qc : Circuit) :
    BState × Except PyErr (List GStmt) :=
  match build_definitions s with
  | (s1, .error e) => (s1, .error e)
  | (s1, .ok defs) =>
    let inputs := build_inputs qc
    let bits := build_bitdeclarations qc
    let qds := build_quantumdeclarations qc
    match build_quantuminstructions s1 qc.data with
    | .error e => (s1, .error e)
    | .ok qis => (s1, .ok (defs ++ inputs ++ bits ++ qds ++ qis))

/-- `Qasm3Builder.build_program` (lines 247-249) in a given initial
builder state: hoist the declarations, then build header and global
statements; the result pairs the include list (the header content) with
the statement list. -/
def build_programFrom (s0 : BState) (qc : Circuit) (includes : List String) :
    Except PyErr (List String × List GStmt) :=
  match hoist_declarations s0 qc.data with
  | .error e => .error e
  | .ok s1 =>
    match build_globalstatements s1 qc with
    | (_, .error e) => .error e
    | (_, .ok stmts) => .ok (includes, stmts)

/-- A whole export from a given initial builder state:
`build_program().qasm()` followed by `flatten_tree`
(`Exporter.dumps` / `Exporter.qasm_tree`, lines 106-119). -/
def exportFrom (s0 : BState) (qc : Circuit) (includes : List String) :
    Except PyErr String :=
  match build_programFrom s0 qc includes with
  | .error e => .error e
  | .ok (incs, stmts) => .ok (flatten_tree (renderProgram incs stmts))

/-- The `includes` argument of `Exporter.__init__` as a Python value:
`None`, a string, or a list. -/
inductive IncludesArg where
  | noneArg
  | strArg (s : String)
  | listArg (l : List String)

/-- The value of the attribute `self.includes` after `Exporter.__init__`
(lines 95-104): assigned `["stdgates.inc"]` when the argument is `None`
and `[s]` when it is a string `s`; for every other argument (any list
included) neither `if` fires and the attribute is never assigned
(`none` here). -/
def exporterIncludesAttr : IncludesArg → Option (List String)
  | .noneArg => some ["stdgates.inc"]
  | .strArg s => some [s]
  | .listArg _ => none

/-- An `Exporter` object after `__init__`. -/
structure Exporter where
  quantumcircuit : Circuit
  includesAttr : Option (List String)

/-- `Exporter(qc, includes)`. -/
def exporterInit (qc : Circuit) (includes : IncludesArg) : Exporter :=
  { quantumcircuit := qc, includesAttr := exporterIncludesAttr includes }

/-- `Exporter.dumps` (lines 106-108): `qasm_tree` reads `self.includes`
(raising `AttributeError` when `__init__` never assigned it), builds the
program from a fresh `Qasm3Builder`, and flattens the tree. -/
def Exporter.dumps (e : Exporter) : Except PyErr String :=
  match e.includesAttr with
  | none => .error .attributeError
  | some incs => exportFrom (initBState incs) e.quantumcircuit incs

/-- The method names defined by `class Exporter` (exporter.py lines
92-119): `__init__`, `dumps`, `flatten_tree`, `qasm_tree` — and no
`dump`. -/
def exporterHasMethod : String → Bool
  | "__init__" => true
  | "dumps" => true
  | "flatten_tree" => true
  | "qasm_tree" => true
  | _ => false

/-- Calling the `Exporter` class with an explicit list of positional
arguments: `__init__(self, quantumcircuit, includes=None)` requires
exactly the `quantumcircuit` argument (a `TypeError` otherwise). -/
def callExporter (posArgs : List Circuit) : Except PyErr Exporter :=
  match posArgs with
  | [qc] => .ok (exporterInit qc .noneArg)
  | _ => .error .typeError

/-- Looking up a method on an `Exporter` instance raises
`AttributeError` when the class does not define it. -/
def exporterGetMethod (_e : Exporter) (m : String) : Except PyErr String :=
  if exporterHasMethod m then .ok m else .error .attributeError

/-- `qiskit.qasm3.dump(quantumcircuit, flo)` (`qasm3/__init__.py` lines
38-46): evaluates `Exporter()` — no positional argument — and would then
invoke `.dump(quantumcircuit, flo)` on the result.  The returned string
is the text that would be written to the stream. -/
def qasm3_dump (qc : Circuit) : Except PyErr String :=
  match callExporter [] with
  | .error e => .error e
  | .ok ex =>
    match exporterGetMethod ex "dump" with
    | .error e => .error e
    | .ok _ =>
      -- unreachable: Exporter defines no `dump` method
      match Exporter.dumps { ex with quantumcircuit := qc } with
      | .error e => .error e
      | .ok s => .ok s

/-! Observation helpers used by the property statements. -/

/-- The variable declared by an `input` statement, `none` otherwise. -/
def inputVar : GStmt → Option String
  | .inputDecl _ v => some v
  | _ => none

/-- The parameter expressions of a gate-call statement. -/
def gateCallParams : GStmt → List String
  | .gateCall _ ps _ => ps
  | _ => []

/-! Concrete instruction objects and circuits used to instantiate the
properties.  The `iid` numbers play the role of the Python object ids. -/

/-- A standard-library Hadamard instance, as appears inside definitions. -/
def hGate : Instr := .mk 201 "h" (.std "HGate") [] 1 none none false

/-- A user gate `g1` (exact class `Gate`, from `to_gate`) whose body is
one `h`. -/
def g1Gate : Instr := .mk 101 "g1" .gate [] 1
  (some (.mk [⟨"gq", 1⟩] [] [.mk hGate [⟨"gq", 0⟩] []])) none false

/-- A user subroutine `s1` (exact class `Instruction`, from
`to_instruction`) whose body is one call of the user gate `g1`. -/
def s1Sub : Instr := .mk 102 "s1" .instrType [] 1
  (some (.mk [⟨"sq", 1⟩] [] [.mk g1Gate [⟨"sq", 0⟩] []])) none false

/-- A circuit whose single instruction is the subroutine `s1`. -/
def c1circ : Circuit :=
  { qregs := [⟨"q", 1⟩], cregs := [], data := [.mk s1Sub [⟨"q", 0⟩] []],
    parameters := [] }

/-- An instruction of a class the lowering dispatch does not recognise
(neither a gate nor a barrier nor a measurement, and not a user
subroutine either). -/
def weirdInstr : Instr := .mk 301 "weird" (.otherInstr "Snapshot") [] 1
  none none false

/-- A standard `rz` instance carrying the unbound parameter `θ`. -/
def rzTheta : Instr := .mk 401 "rz" (.std "RZGate") [.sym "θ"] 1 none
  none false

/-- A circuit with one classical register, one quantum register and one
unbound parameter. -/
def c3circ : Circuit :=
  { qregs := [⟨"q", 1⟩], cregs := [⟨"c", 1⟩],
    data := [.mk rzTheta [⟨"q", 0⟩] []], parameters := ["θ"] }

/-- A user gate named `foo` with id 15. -/
def fooGate : Instr := .mk 15 "foo" .gate [] 1 none none false

/-- A user gate whose name `cx` collides with the standard library. -/
def cxUser : Instr := .mk 77 "cx" .gate [] 2
  (some (.mk [⟨"uq", 2⟩] [] [])) none false

/-- The float `2*pi`: decimal text `6.283185307179586`, exact pi
decomposition `2/1`. -/
def twoPi : PParam := .num "6.283185307179586" (some (2, 1))

/-- A standard `rx` instance with the `2*pi` parameter. -/
def rx2pi : Instr := .mk 501 "rx" (.std "RXGate") [twoPi] 1 none none false

/-- A one-qubit circuit calling `rx(2*pi)`. -/
def c5circ : Circuit :=
  { qregs := [⟨"q", 1⟩], cregs := [], data := [.mk rx2pi [⟨"q", 0⟩] []],
    parameters := [] }

/-- A `Measure` instance. -/
def measOp : Instr := .mk 601 "measure" .measureOp [] 1 none none false

/-- A standard `h` instance appearing at the top level of a circuit. -/
def hTop : Instr := .mk 701 "h" (.std "HGate") [] 1 none none false

/-- A small `h`-then-measure circuit. -/
def c7circ : Circuit :=
  { qregs := [⟨"q", 1⟩], cregs := [⟨"c", 1⟩],
    data := [.mk hTop [⟨"q", 0⟩] [], .mk measOp [⟨"q", 0⟩] [⟨"c", 0⟩]],
    parameters := [] }

/-- A `Measure` instance used inside a malformed definition body. -/
def badMeas : Instr := .mk 802 "measure" .measureOp [] 1 none none false

/-- A subroutine whose body holds a measurement with an empty
classical-target list, so building its definition raises. -/
def badSub : Instr := .mk 801 "bad" .instrType [] 1
  (some (.mk [⟨"bq", 1⟩] [] [.mk badMeas [⟨"bq", 0⟩] []])) none false

/-- The builder state after hoisting the declarations of `c1circ` (the
export pipeline reaches `build_definitions` in exactly this state). -/
def sC1 : BState :=
  match hoist_declarations (initBState ["stdgates.inc"]) c1circ.data with
  | .ok s => s
  | .error _ => initBState []

/-- The definitions block the builder emits for `c1circ`: the subroutine
`s1` first — although its body calls the gate `g1`, whose block comes
second. -/
def dsC1 : List GStmt :=
  [.subDef "s1" [⟨"sq_0", none⟩] [.gateCall "g1" [] [.plain "sq_0"]],
   .gateDef "g1" [] ["gq_0"] [.gateCall "h" [] [.plain "gq_0"]]]

/-! Theorems. -/

/-- The inlining in the conditioned-gate branch of
`build_quantuminstructions` is exact: `build_programblock` on the
singleton clone list produces precisely the one gate call the branch
block holds. -/
theorem build_programblock_clone (s : BState) (i : Nat) (n : String)
    (k : Kind) (p : List PParam) (q : Nat) (d : Option SubC)
    (qa ca : List Bit) (hk : isGateKind k = true) :
    build_programblock s [Tup.mk (Instr.mk i n k p q d none true) qa ca]
      = .ok [build_quantumgatecall s
              (Tup.mk (Instr.mk i n k p q d none true) qa ca)] := by
  simp [build_programblock, build_quantuminstructions, hk]

/-- Updating an association list binds the written key. -/
theorem alookup_aset_self (l : List (String × NsEntry)) (k : String)
    (v : NsEntry) : alookup (aset l k v) k = some v := by
  induction l with
  | nil => simp [aset, alookup]
  | cons p rest ih =>
    by_cases h : p.1 == k
    · simp [aset, h, alookup]
    · simp [aset, h, alookup, ih]

/-- Claim C4, corrected.  `GlobalNamespace.register` tests only whether
the instruction's name is a key of the dict: whenever the name is present
— no matter what it is bound to — the instruction is bound under
`name + "_" + id`, and only an absent name is bound bare. -/
theorem register_suffixes_when_name_present (ns : GlobalNamespace)
    (x : Instr) :
    (nsContains ns x.name = true →
      alookup (nsRegister ns x).fwd (x.name ++ "_" ++ toString x.iid)
        = some (.obj x))
    ∧ (nsContains ns x.name = false →
      alookup (nsRegister ns x).fwd x.name = some (.obj x)) := by
  constructor
  · intro h
    simp [nsRegister, h, nsSet, alookup_aset_self]
  · intro h
    simp [nsRegister, h, nsSet, alookup_aset_self]

/-- Witness for the corrected C4: a user gate named `cx` collides with a
pre-seeded standard-library name, so it is bound under the suffixed
name `cx_77`. -/
theorem register_suffixes_witness :
    alookup (nsRegister (initNamespace ["stdgates.inc"]) cxUser).fwd
        ("cx" ++ "_" ++ toString 77)
      = some (.obj cxUser) :=
  (register_suffixes_when_name_present (initNamespace ["stdgates.inc"])
    cxUser).1 rfl

/-- Counterexample to claim C4 as stated.  Registering the same
instruction object twice: before the second `register` call, `foo` is
bound to that very instruction (Python `==` holds, so the name is *not*
bound to a different instruction), yet the second call still binds the
suffixed name `foo_15` instead of binding under the bare name. -/
theorem register_same_instruction_counterexample :
    pyEqI fooGate fooGate = true
    ∧ (match alookup (nsRegister (initNamespace []) fooGate).fwd "foo" with
       | some e => nsEq e fooGate
       | none => false) = true
    ∧ alookup
        (nsRegister (nsRegister (initNamespace []) fooGate) fooGate).fwd
        "foo_15"
      = some (.obj fooGate) :=
  ⟨by decide, by decide, rfl⟩

/-- Claim C9 (a defect the code carries): the streamed-write entry point
`qiskit.qasm3.dump` can never produce output — it calls `Exporter()`
without the required `quantumcircuit` argument, so every call raises
`TypeError`; moreover the `Exporter` class defines no `dump` method at
all. -/
theorem module_dump_always_fails (qc : Circuit) :
    qasm3_dump qc = .error .typeError
    ∧ exporterHasMethod "dump" = false :=
  ⟨rfl, rfl⟩

/-- Claim C10, confirmed.  `Exporter.__init__` assigns
`self.includes = ["stdgates.inc"]` for `includes=None` and wraps a string
argument in a list, but assigns nothing for any list argument — the
documented default `["stdgates.inc"]` passed explicitly included — so a
later `dumps` dies with `AttributeError` before producing output. -/
theorem exporter_includes_init_behaviour :
    exporterIncludesAttr .noneArg = some ["stdgates.inc"]
    ∧ (∀ s : String, exporterIncludesAttr (.strArg s) = some [s])
    ∧ (∀ (l : List String) (qc : Circuit),
        Exporter.dumps (exporterInit qc (.listArg l))
          = .error .attributeError) :=
  ⟨rfl, fun _ => rfl, fun _ _ => rfl⟩

/-- Claim C2, corrected.  An instruction whose class is neither a gate
nor `Barrier` nor `Measure` is not rejected: the lowering dispatch falls
through to the `else` branch and emits a subroutine call for it — there
is no `UnsupportedConstruct` (or any other) error path for unrecognised
kinds. -/
theorem unknown_kind_lowered_as_subroutinecall (s : BState) (i : Nat)
    (n : String) (k : Kind) (p : List PParam) (q : Nat) (d : Option SubC)
    (c : Option (String × Int)) (fr : Bool) (qa ca : List Bit)
    (hg : isGateKind k = false) (hb : k ≠ .barrier) (hm : k ≠ .measureOp) :
    build_quantuminstructions s [Tup.mk (Instr.mk i n k p q d c fr) qa ca]
      = .ok [build_subroutinecall s (Tup.mk (Instr.mk i n k p q d c fr) qa ca)] := by
  simp [build_quantuminstructions, hg, hb, hm]

/-- Witness for the corrected C2 at the concrete unrecognised
instruction. -/
theorem unknown_kind_witness :
    build_quantuminstructions (initBState ["stdgates.inc"])
        [Tup.mk weirdInstr [⟨"q", 0⟩] []]
      = .ok [build_subroutinecall (initBState ["stdgates.inc"])
              (Tup.mk weirdInstr [⟨"q", 0⟩] [])] :=
  unknown_kind_lowered_as_subroutinecall (initBState ["stdgates.inc"]) 301
    "weird" (.otherInstr "Snapshot") [] 1 none none false [⟨"q", 0⟩] []
    (by decide) (by decide) (by decide)

/-- Counterexample to claim C2 as stated: lowering an instruction whose
kind is neither gate, subroutine, barrier nor measurement aborts nothing
and emits the statement `weird q[0];` — rather than raising a fatal
`UnsupportedConstruct` error with no output. -/
theorem unknown_kind_counterexample :
    build_quantuminstructions (initBState ["stdgates.inc"])
        [Tup.mk weirdInstr [⟨"q", 0⟩] []]
      = .ok [.subCall "weird" [] [.indexed "q" 0]]
    ∧ renderStmts [GStmt.subCall "weird" [] [.indexed "q" 0]]
      = ["weird q[0];\n"] :=
  ⟨rfl, rfl⟩

/-- Claim C5 (a defect the code carries): the exporter's whole
configuration surface is the `includes` argument — there is no
constant-folding toggle.  Gate-call parameters always go through
`pi_check`, so in every builder state the `2π` parameter renders `2*pi`;
the decimal rendering the toggle should enable is unreachable.  (The
repository's own tests construct `Exporter(circuit,
disable_constants=True)`, an argument `__init__` does not accept.) -/
theorem pi_folding_cannot_be_disabled :
    pi_check twoPi = "2*pi"
    ∧ (∀ (s : BState) (qa ca : List Bit),
        gateCallParams (build_quantumgatecall s (Tup.mk rx2pi qa ca))
          = ["2*pi"])
    ∧ Exporter.dumps (exporterInit c5circ .noneArg)
      = .ok "OPENQASM 3;\ninclude stdgates.inc;\nqubit[1] q;\nrx(2*pi) q[0];\n" :=
  ⟨rfl, fun _ _ _ => rfl, rfl⟩

/-- Claim C6, corrected.  The measurement lowering never checks how many
classical targets there are: an empty list raises `IndexError` (from
`instruction[2][0]`), and a list with one or more entries is lowered
without any error, binding only the first entry; the remaining targets
are silently dropped. -/
theorem measure_binds_first_classical_target (s : BState) (i : Nat)
    (n : String) (p : List PParam) (q : Nat) (d : Option SubC)
    (c : Option (String × Int)) (fr : Bool) (qa : List Bit) :
    build_quantuminstructions s [Tup.mk (Instr.mk i n .measureOp p q d c fr) qa []]
      = .error .indexError
    ∧ (∀ (c0 : Bit) (cs : List Bit),
        build_quantuminstructions s
            [Tup.mk (Instr.mk i n .measureOp p q d c fr) qa (c0 :: cs)]
          = .ok [.measureAssign (build_indexidentifier s c0)
                  (build_indexIdentifierlist s qa)]) := by
  constructor
  · simp [build_quantuminstructions, isGateKind]
  · intro c0 cs
    simp [build_quantuminstructions, isGateKind]

/-- Counterexample to claim C6 as stated: a measurement with the
two-element classical-target list `[c[0], c[1]]` raises no error; it
produces `c[0] = measure q[0];`, binding only the first target. -/
theorem measure_two_targets_counterexample :
    build_quantuminstructions (initBState ["stdgates.inc"])
        [Tup.mk measOp [⟨"q", 0⟩] [⟨"c", 0⟩, ⟨"c", 1⟩]]
      = .ok [.measureAssign (.indexed "c" 0) [.indexed "q" 0]]
    ∧ renderStmts [GStmt.measureAssign (.indexed "c" 0) [.indexed "q" 0]]
      = ["c[0] = measure q[0];\n"] :=
  ⟨rfl, rfl⟩

/-- Claim C7, confirmed.  The export model — namespace, hoist dicts, AST
— is created fresh per call and the output is a function of the circuit
and the configuration alone, so two runs started from freshly
initialised builder states produce byte-identical text (the id-derived
suffixes included, the ids being fixed attributes of the circuit's
instruction objects). -/
theorem export_two_runs_identical (qc : Circuit) (incs : List String)
    (s1 s2 : BState) (h1 : s1 = initBState incs)
    (h2 : s2 = initBState incs) :
    exportFrom s1 qc incs = exportFrom s2 qc incs := by
  rw [h1, h2]

/-- Witness for C7 at a concrete `h`-then-measure circuit. -/
theorem export_two_runs_witness :
    exportFrom (initBState ["stdgates.inc"]) c7circ ["stdgates.inc"]
      = exportFrom (initBState ["stdgates.inc"]) c7circ ["stdgates.inc"] :=
  export_two_runs_identical c7circ ["stdgates.inc"]
    (initBState ["stdgates.inc"]) (initBState ["stdgates.inc"]) rfl rfl

/-- Claim C8, corrected.  `build_definition` sets the flat-naming flag
and clears it only on the normal return path; there is no
`try`/`finally`, so when the body builder raises, the flag is left set
rather than restored. -/
theorem flat_reg_restored_only_on_normal_return (s : BState) (i : Instr)
    (b : BState → Instr → Except PyErr GStmt) :
    (∀ e : PyErr, b { s with flat_reg := true } i = .error e →
      (build_definition s i b).1.flat_reg = true)
    ∧ (∀ d : GStmt, b { s with flat_reg := true } i = .ok d →
      (build_definition s i b).1.flat_reg = false) := by
  constructor
  · intro e he
    simp [build_definition, he]
  · intro d hd
    simp [build_definition, hd]

/-- Witness for the corrected C8: the error path at the concrete raising
builder (left conjunct) and the normal path at the always-succeeding
opaque builder (right conjunct). -/
theorem flat_reg_paths_witness :
    (build_definition (initBState ["stdgates.inc"]) badSub
        build_subroutinedefinition).1.flat_reg = true
    ∧ (build_definition (initBState ["stdgates.inc"]) fooGate
        build_opaqdefinition).1.flat_reg = false :=
  ⟨(flat_reg_restored_only_on_normal_return (initBState ["stdgates.inc"])
      badSub build_subroutinedefinition).1 .indexError rfl,
   (flat_reg_restored_only_on_normal_return (initBState ["stdgates.inc"])
      fooGate build_opaqdefinition).2
     (.calDef "foo" ["q_0"]) rfl⟩

/-- Counterexample to claim C8 as stated: building the definition of
`badSub` (whose body holds a measurement with no classical target)
raises `IndexError`, and after that call the flag reads `true` although
it was `false` before the call — it is not restored on the error exit
path. -/
theorem flat_reg_error_path_counterexample :
    (initBState ["stdgates.inc"]).flat_reg = false
    ∧ (build_definition (initBState ["stdgates.inc"]) badSub
        build_subroutinedefinition).1.flat_reg = true
    ∧ (build_definition (initBState ["stdgates.inc"]) badSub
        build_subroutinedefinition).2 = .error .indexError :=
  ⟨rfl, rfl, rfl⟩

/-- Shape of an emitted opaque declaration: named by the namespace,
tagged `defcal`. -/
theorem build_opaqdef_shape (s : BState) (i : Instr) (d : GStmt)
    (h : build_opaqdefinition s i = .ok d) :
    d.defName = some (nsGetName s.ns i) ∧ d.tag = STag.calDef := by
  simp [build_opaqdefinition] at h
  subst h
  exact ⟨rfl, rfl⟩

/-- Shape of an emitted subroutine definition: named by the namespace,
tagged `def`. -/
theorem build_subdef_shape (s : BState) (i : Instr) (d : GStmt)
    (h : build_subroutinedefinition s i = .ok d) :
    d.defName = some (nsGetName s.ns i) ∧ d.tag = STag.subDef := by
  cases hd : i.defn with
  | none => simp [build_subroutinedefinition, hd] at h
  | some sub =>
    cases hq : build_quantuminstructions s sub.data with
    | error e => simp [build_subroutinedefinition, hd, hq] at h
    | ok body =>
      simp [build_subroutinedefinition, hd, hq] at h
      subst h
      exact ⟨rfl, rfl⟩

/-- Shape of an emitted gate definition: named by the namespace, tagged
`gate`. -/
theorem build_gatedef_shape (s : BState) (i : Instr) (d : GStmt)
    (h : build_quantumgatedefinition s i = .ok d) :
    d.defName = some (nsGetName s.ns i) ∧ d.tag = STag.gateDef := by
  cases hd : i.defn with
  | none => simp [build_quantumgatedefinition, hd] at h
  | some sub =>
    cases hq : build_quantuminstructions s sub.data with
    | error e => simp [build_quantumgatedefinition, hd, hq] at h
    | ok body =>
      simp [build_quantumgatedefinition, hd, hq] at h
      subst h
      exact ⟨rfl, rfl⟩

/-- A successful `build_definitions` loop leaves the namespace and the
declare dicts untouched and emits one block per dict value, in the
dict's order, each named by the namespace and tagged by its builder. -/
theorem buildDefLoop_spec (b : BState → Instr → Except PyErr GStmt)
    (T : STag)
    (hb : ∀ (s : BState) (i : Instr) (d : GStmt), b s i = .ok d →
      d.defName = some (nsGetName s.ns i) ∧ d.tag = T) :
    ∀ (l : List Instr) (s s2 : BState) (ds : List GStmt),
      buildDefLoop s l b = (s2, .ok ds) →
      s2.ns = s.ns
      ∧ ds.map GStmt.defName = l.map (fun i => some (nsGetName s.ns i))
      ∧ ds.map GStmt.tag = l.map (fun _ => T) := by
  intro l
  induction l with
  | nil =>
    intro s s2 ds h
    simp [buildDefLoop] at h
    obtain ⟨h1, h2⟩ := h
    subst h1; subst h2
    exact ⟨rfl, rfl, rfl⟩
  | cons i rest ih =>
    intro s s2 ds h
    cases hb1 : b { s with flat_reg := true } i with
    | error e => simp [buildDefLoop, build_definition, hb1] at h
    | ok d =>
      obtain ⟨hname, htag⟩ := hb ({ s with flat_reg := true }) i d hb1
      cases h2 : buildDefLoop { s with flat_reg := false } rest b with
      | mk s2x r2 =>
        cases r2 with
        | error e => simp [buildDefLoop, build_definition, hb1, h2] at h
        | ok ds2 =>
          simp [buildDefLoop, build_definition, hb1, h2] at h
          obtain ⟨hs, hds⟩ := h
          subst hs; subst hds
          obtain ⟨ihns, ihnames, ihtags⟩ :=
            ih { s with flat_reg := false } s2x ds2 h2
          refine ⟨ihns, ?_, ?_⟩
          · simp [hname, ihnames]
          · simp [htag, ihtags]

/-- Claim C1, corrected.  Whenever `build_definitions` succeeds, the
definitions block consists of the opaque declarations first, then the
subroutine definitions, then the gate definitions, each group in its
dict's insertion order — which is the order the post-order hoist
registered that group.  (Grouping by category means dependency order is
not guaranteed across categories: see the counterexample.) -/
theorem definitions_grouped_in_hoist_order (s s3 : BState)
    (ds : List GStmt) (h : build_definitions s = (s3, .ok ds)) :
    ds.map GStmt.defName
      = (dvalues s.opaq_to_declare ++ dvalues s.subroutine_to_declare
          ++ dvalues s.gate_to_declare).map
          (fun i => some (nsGetName s.ns i))
    ∧ ds.map GStmt.tag
      = (dvalues s.opaq_to_declare).map (fun _ => STag.calDef)
        ++ (dvalues s.subroutine_to_declare).map (fun _ => STag.subDef)
        ++ (dvalues s.gate_to_declare).map (fun _ => STag.gateDef) := by
  unfold build_definitions at h
  cases h1 : buildDefLoop s (dvalues s.opaq_to_declare)
      build_opaqdefinition with
  | mk s1 r1 =>
    rw [h1] at h
    cases r1 with
    | error e => simp at h
    | ok ds1 =>
      simp at h
      cases h2 : buildDefLoop s1 (dvalues s.subroutine_to_declare)
          build_subroutinedefinition with
      | mk s2 r2 =>
        rw [h2] at h
        cases r2 with
        | error e => simp at h
        | ok ds2 =>
          simp at h
          cases h3 : buildDefLoop s2 (dvalues s.gate_to_declare)
              build_quantumgatedefinition with
          | mk s3x r3 =>
            rw [h3] at h
            cases r3 with
            | error e => simp at h
            | ok ds3 =>
              simp at h
              obtain ⟨hs, hds⟩ := h
              subst hs
              subst hds
              obtain ⟨hns1, hn1, ht1⟩ :=
                buildDefLoop_spec _ _ build_opaqdef_shape _ _ _ _ h1
              obtain ⟨hns2, hn2, ht2⟩ :=
                buildDefLoop_spec _ _ build_subdef_shape _ _ _ _ h2
              obtain ⟨hns3, hn3, ht3⟩ :=
                buildDefLoop_spec _ _ build_gatedef_shape _ _ _ _ h3
              rw [hns1] at hn2
              rw [hns2, hns1] at hn3
              constructor
              · simp [hn1, hn2, hn3]
              · simp [ht1, ht2, ht3]

/-- Witness for the corrected C1 at the hoisted state of `c1circ`: the
subroutine block (`s1`) is listed before the gate block (`g1`), matching
the group order subroutines-then-gates. -/
theorem definitions_grouped_witness :
    dsC1.map GStmt.defName = [some "s1", some "g1"]
    ∧ dsC1.map GStmt.tag = [STag.subDef, STag.gateDef] :=
  definitions_grouped_in_hoist_order sC1 sC1 dsC1 rfl

/-- Counterexample to claim C1 as stated.  In `c1circ` the subroutine
`s1` is a non-builtin definition whose body calls the non-builtin gate
`g1`, yet the emitted program lists `s1`'s `def` block (with the call
`g1 sq_0;` inside it) *before* `g1`'s `gate` block — the callee's block
does not precede the caller's, and the blocks are not in post-order
hoist registration order (the hoist registered `g1` first). -/
theorem definitions_dependency_order_counterexample :
    build_programFrom (initBState ["stdgates.inc"]) c1circ ["stdgates.inc"]
      = .ok (["stdgates.inc"],
          [.subDef "s1" [⟨"sq_0", none⟩] [.gateCall "g1" [] [.plain "sq_0"]],
           .gateDef "g1" [] ["gq_0"] [.gateCall "h" [] [.plain "gq_0"]],
           .qubitDecl "q" 1,
           .subCall "s1" [] [.indexed "q" 0]])
    ∧ (dvalues sC1.gate_to_declare).map Instr.name = ["g1"]
    ∧ (dvalues sC1.subroutine_to_declare).map Instr.name = ["s1"]
    ∧ exportFrom (initBState ["stdgates.inc"]) c1circ ["stdgates.inc"]
      = .ok "OPENQASM 3;\ninclude stdgates.inc;\ndef s1 qubit sq_0 \x7b\ng1 sq_0;\nreturn;\n\x7d\ngate g1 gq_0 \x7b\nh gq_0;\n\x7d\nqubit[1] q;\ns1 q[0];\n" :=
  ⟨rfl, rfl, rfl, rfl⟩

/-- The input declarations list one variable per circuit parameter. -/
theorem inputs_filterMap (qc : Circuit) :
    (build_inputs qc).filterMap inputVar = qc.parameters := by
  show ((qc.parameters.map (fun p => GStmt.inputDecl "float[32]" p)).filterMap
    inputVar) = qc.parameters
  induction qc.parameters with
  | nil => rfl
  | cons p rest ih => simp [inputVar, ih]

/-- Claim C3, corrected.  The global statement list is: definition
blocks, then the `input float[32]` declarations (one per unbound
parameter, each exactly once), then the classical `bit` declarations,
then the quantum `qubit` declarations, then the instruction statements —
so the inputs come after the definitions but *before* the
classical/quantum declarations, and before every instruction. -/
theorem inputs_after_definitions_before_declarations (s s1 : BState)
    (qc : Circuit) (ds qis : List GStmt)
    (h1 : build_definitions s = (s1, .ok ds))
    (h2 : build_quantuminstructions s1 qc.data = .ok qis) :
    build_globalstatements s qc
      = (s1, .ok (ds ++ build_inputs qc ++ build_bitdeclarations qc
          ++ build_quantumdeclarations qc ++ qis))
    ∧ (qc.parameters.Nodup → ∀ p ∈ qc.parameters,
        ((build_inputs qc).filterMap inputVar).count p = 1) := by
  constructor
  · simp [build_globalstatements, h1, h2]
  · intro hnd p hp
    rw [inputs_filterMap]
    exact List.count_eq_one_of_mem hnd hp

/-- Witness for the corrected C3 at the concrete one-parameter circuit:
no definitions, then the input, then the bit and qubit declarations,
then the `rz` call. -/
theorem inputs_position_witness :
    build_globalstatements (initBState ["stdgates.inc"]) c3circ
      = (initBState ["stdgates.inc"],
         .ok ([] ++ build_inputs c3circ ++ build_bitdeclarations c3circ
           ++ build_quantumdeclarations c3circ
           ++ [.gateCall "rz" ["θ"] [.indexed "q" 0]])) :=
  (inputs_after_definitions_before_declarations
    (initBState ["stdgates.inc"]) (initBState ["stdgates.inc"]) c3circ []
    [.gateCall "rz" ["θ"] [.indexed "q" 0]] rfl rfl).1

/-- Counterexample to claim C3 as stated: in the exported text of
`c3circ` the statement `input float[32] θ;` comes *before* `bit[1] c;`
and `qubit[1] q;`, not after the classical/quantum declarations. -/
theorem inputs_before_declarations_counterexample :
    (match (build_globalstatements (initBState ["stdgates.inc"]) c3circ).2 with
     | .ok l => l.map GStmt.tag
     | .error _ => [])
      = [.inputDecl, .bitDecl, .qubitDecl, .gateCall]
    ∧ exportFrom (initBState ["stdgates.inc"]) c3circ ["stdgates.inc"]
      = .ok "OPENQASM 3;\ninclude stdgates.inc;\ninput float[32] θ;\nbit[1] c;\nqubit[1] q;\nrz(θ) q[0];\n" :=
  ⟨rfl, rfl⟩

end Qasm3
